import Mathlib

/-!
Verification of the FakeBuster scoring and classification engine.

The definitions below are a shallow embedding of the Python source:
`backend/app/main.py` (trust scorer, fallback review classifier, review
batch analysis, text pattern scanner) and `backend/app/features.py`
(feature extraction).  Text is modelled as `List Char`, Python floats as
`ℚ`, and integer scores as `ℤ`.
-/

namespace FakeBuster

/-- The website signals consumed by `calculate_website_trust_score`
(the keys read from `analysis_data` with their `get` defaults). -/
structure WebsiteSignals where
  has_ssl : Bool
  has_contact_info : Bool
  has_privacy_policy : Bool
  has_terms_of_service : Bool
  suspicious_elements : List String
  domain_age_days : ℤ
  url_length : ℕ

/-- Embedding of `calculate_website_trust_score` from `main.py`:
base 50, sequential adjustments, final clamp `max(0, min(100, score))`. -/
def calculate_website_trust_score (d : WebsiteSignals) : ℤ :=
  let score : ℤ := 50
  let score := if d.has_ssl then score + 20 else score - 20
  let score := if d.has_contact_info then score + 15 else score
  let score := if d.has_privacy_policy then score + 10 else score
  let score := if d.has_terms_of_service then score + 10 else score
  let score := score - (d.suspicious_elements.length : ℤ) * 10
  let score := if d.domain_age_days > 365 then score + 15
               else if d.domain_age_days > 90 then score + 5
               else score - 10
  let score := if d.url_length > 100 then score - 5 else score
  max 0 (min 100 score)

/-- Result record of `analyze_website_legitimacy`. -/
structure LegitimacyResult where
  trust_score : ℤ
  status : String
  warnings : List String
  is_legitimate : Bool
  risk_level : String
deriving DecidableEq, Repr

/-- Embedding of `analyze_website_legitimacy` from `main.py`. -/
def analyze_website_legitimacy (d : WebsiteSignals) : LegitimacyResult :=
  let trust_score := calculate_website_trust_score d
  let warnings :=
    (if !d.has_ssl then ["Website does not use HTTPS encryption"] else [])
    ++ (if !d.has_contact_info then ["No contact information found"] else [])
    ++ (if "excessive_popups" ∈ d.suspicious_elements then
          ["Excessive popup advertisements detected"] else [])
    ++ (if "urgency_tactics" ∈ d.suspicious_elements then
          ["Urgency pressure tactics detected"] else [])
  if trust_score ≥ 70 then
    ⟨trust_score, "safe", warnings, true, "low"⟩
  else if trust_score ≥ 40 then
    ⟨trust_score, "warning", warnings, true, "medium"⟩
  else
    ⟨trust_score, "danger", warnings, false, "high"⟩

/-- The spec's additive delta table for the trust score, written as one sum
(base 50 plus the table of deltas, clamped to [0,100]); to be compared
with the source embedding `calculate_website_trust_score`. -/
def trust_score_spec_table (d : WebsiteSignals) : ℤ :=
  let raw : ℤ := 50
    + (if d.has_ssl then 20 else -20)
    + (if d.has_contact_info then 15 else 0)
    + (if d.has_privacy_policy then 10 else 0)
    + (if d.has_terms_of_service then 10 else 0)
    - (d.suspicious_elements.length : ℤ) * 10
    + (if d.domain_age_days > 365 then 15
       else if d.domain_age_days > 90 then 5 else -10)
    + (if d.url_length > 100 then -5 else 0)
  max 0 (min 100 raw)

end FakeBuster

namespace FakeBuster

set_option maxHeartbeats 2000000 in
/-- Claim C1: for every website-signal input the trust score equals the
spec's additive delta table clamped to [0,100], and the categorical
fields of the verdict are determined from that score by the inclusive
thresholds: score ≥ 70 → low/safe/legitimate, 40 ≤ score < 70 →
medium/warning/legitimate, score < 40 → high/danger/not legitimate. -/
theorem trust_score_matches_spec_table (d : WebsiteSignals) :
    calculate_website_trust_score d = trust_score_spec_table d ∧
    (analyze_website_legitimacy d).trust_score = calculate_website_trust_score d ∧
    ((analyze_website_legitimacy d).risk_level,
     (analyze_website_legitimacy d).status,
     (analyze_website_legitimacy d).is_legitimate) =
      (if calculate_website_trust_score d ≥ 70 then ("low", "safe", true)
       else if calculate_website_trust_score d ≥ 40 then ("medium", "warning", true)
       else ("high", "danger", false)) := by
  refine ⟨?_, ?_, ?_⟩
  · simp only [calculate_website_trust_score, trust_score_spec_table]
    split_ifs <;> omega
  · simp only [analyze_website_legitimacy]
    split_ifs <;> rfl
  · simp only [analyze_website_legitimacy]
    split_ifs <;> rfl

/-- The concrete input of the spec's worked example: no SSL, no contact
info, no privacy policy, no terms of service, no suspicious elements,
domain age 0 days, URL length 0. -/
def exampleSignals : WebsiteSignals :=
  ⟨false, false, false, false, [], 0, 0⟩

/-- Claim C10, counterexample: on the spec's worked example the code
computes trust score 20 (50 − 20 for missing SSL and − 10 for domain age
≤ 90), not 30 as the claim states. -/
theorem trust_score_example_not_thirty :
    calculate_website_trust_score exampleSignals ≠ 30 := by decide

/-- Claim C10, amended: on the input {no SSL, no contact info, no privacy
policy, no terms of service, no suspicious elements, domain age 0, URL
length 0} the trust score is 20 (the domain-age ≤ 90 penalty of −10
applies on top of 50 − 20), with risk_level "high", status "danger" and
is_legitimate false. -/
theorem trust_score_example_value :
    calculate_website_trust_score exampleSignals = 20 ∧
    (analyze_website_legitimacy exampleSignals).risk_level = "high" ∧
    (analyze_website_legitimacy exampleSignals).status = "danger" ∧
    (analyze_website_legitimacy exampleSignals).is_legitimate = false := by
  refine ⟨by decide, ?_, ?_, ?_⟩ <;> decide

/-- Python's `str.lower()` on text modelled as a character list
(`Char.toLower` is the ASCII case mapping, which covers every character
the source's fixed phrase lexicons use). -/
def str_lower (s : List Char) : List Char := s.map Char.toLower

/-- The fixed lexicon `fake_indicators` inside
`FallbackReviewClassifier.predict_proba` in `main.py`. -/
def fake_indicators : List (List Char) :=
  ["amazing".toList, "perfect".toList, "best ever".toList, "life changing".toList,
   "highly recommend".toList, "must buy".toList, "incredible".toList,
   "outstanding".toList, "excellent quality".toList, "fast shipping".toList]

/-- `sum(1 for indicator in fake_indicators if indicator in text_lower)`:
the number of lexicon phrases occurring as substrings of the lowered
text (each phrase counted at most once). -/
def count_fake_indicators (text_lower : List Char) : ℕ :=
  (fake_indicators.filter (fun p => decide (p <:+: text_lower))).length

/-- Embedding of `FallbackReviewClassifier.predict_proba` for a single
input, returning the pair `[1 - fake_prob, fake_prob]`. -/
def fallback_predict_proba (text : List Char) : ℚ × ℚ :=
  let text_lower := str_lower text
  let fake_score := count_fake_indicators text_lower
  let fake_prob : ℚ := min ((fake_score : ℚ) / 5) 0.9
  (1 - fake_prob, fake_prob)

/-- The per-item fields computed on the model-backed branch of
`analyze_reviews` (`fake_probability`, `is_fake`, `confidence`). -/
structure ItemAnalysis where
  fake_probability : ℚ
  is_fake : Bool
  confidence : ℚ
deriving DecidableEq, Repr

/-- The per-item computation of the model-backed branch of
`analyze_reviews` from a two-class probability pair `pred`:
`fake_probability = pred[1]`, `is_fake = fake_probability > 0.7`,
`confidence = fake_probability if fake_probability > 0.5 else
1 - fake_probability`. -/
def ml_item_analysis (pred : ℚ × ℚ) : ItemAnalysis :=
  let fake_probability := pred.2
  { fake_probability := fake_probability
    is_fake := decide (fake_probability > 0.7)
    confidence :=
      if fake_probability > 0.5 then fake_probability else 1 - fake_probability }

end FakeBuster

namespace FakeBuster

/-- Claim C2: the rule-based fallback classifier returns
P(fake) = min(n / 5, 0.9) where n is the number of lexicon phrases
occurring (case-insensitively) as substrings of the text,
P(legitimate) = 1 − P(fake), and P(fake) always lies in [0, 0.9]. -/
theorem fallback_proba_formula_and_bounds (text : List Char) :
    (fallback_predict_proba text).2 =
      min ((count_fake_indicators (str_lower text) : ℚ) / 5) 0.9 ∧
    (fallback_predict_proba text).1 = 1 - (fallback_predict_proba text).2 ∧
    0 ≤ (fallback_predict_proba text).2 ∧
    (fallback_predict_proba text).2 ≤ 0.9 := by
  refine ⟨rfl, rfl, ?_, ?_⟩
  · exact le_min (by positivity) (by norm_num)
  · exact min_le_right _ _

/-- The characters that can appear in Python's decimal rendering of a
list of (non-negative or negative, possibly scientific-notation)
numbers: digits, decimal point, comma, space, brackets, sign characters
and the exponent letter. -/
def numeric_chars : List Char :=
  ['0', '1', '2', '3', '4', '5', '6', '7', '8', '9',
   '.', ',', ' ', '[', ']', '-', '+', 'e']

/-- Whether a character can occur in the decimal rendering of a list of
numbers. -/
def numeric_render_char (c : Char) : Bool := decide (c ∈ numeric_chars)

/-- Lowercasing fixes every numeric-rendering character. -/
theorem toLower_eq_self_of_numeric : ∀ c ∈ numeric_chars, Char.toLower c = c := by
  decide

/-- `str.lower()` is the identity on strings made of numeric-rendering
characters. -/
theorem str_lower_eq_self (s : List Char)
    (h : ∀ c ∈ s, numeric_render_char c = true) : str_lower s = s := by
  induction s with
  | nil => rfl
  | cons c cs ih =>
    have hc : Char.toLower c = c := by
      have := of_decide_eq_true (h c (List.mem_cons_self c cs))
      exact toLower_eq_self_of_numeric c this
    have hcs : str_lower cs = cs :=
      ih (fun x hx => h x (List.mem_cons_of_mem c hx))
    simp only [str_lower, List.map_cons] at hcs ⊢
    rw [hc, hcs]

/-- No phrase of the fallback lexicon occurs in a string made of
numeric-rendering characters: every phrase contains a letter outside
that alphabet. -/
theorem count_fake_indicators_eq_zero (s : List Char)
    (h : ∀ c ∈ s, numeric_render_char c = true) :
    count_fake_indicators s = 0 := by
  have hall : ∀ q ∈ fake_indicators,
      q.any (fun c => !(numeric_render_char c)) = true := by decide
  unfold count_fake_indicators
  rw [List.length_eq_zero, List.filter_eq_nil_iff]
  intro p hp hdec
  have hinf : p <:+: s := of_decide_eq_true hdec
  obtain ⟨c, hcp, hc⟩ := List.any_eq_true.mp (hall p hp)
  have hnum : numeric_render_char c = true := h c (hinf.subset hcp)
  rw [hnum] at hc
  exact Bool.false_ne_true hc

/-- Claim C3: when the trained artifact is missing but ML libraries are
present, `analyze_reviews` hands the numeric feature vector to
`FallbackReviewClassifier.predict_proba`, which lowercases its string
rendering and searches for lexicon phrases; on any string drawn from the
numeric-rendering alphabet the phrase count is 0, so the path yields
P(fake) = 0, is_fake = false and confidence = 1, regardless of the
review's content. -/
theorem fallback_on_numeric_rendering (render : List Char)
    (h : ∀ c ∈ render, numeric_render_char c = true) :
    (fallback_predict_proba render).2 = 0 ∧
    ml_item_analysis (fallback_predict_proba render) =
      ⟨0, false, 1⟩ := by
  have h0 : count_fake_indicators (str_lower render) = 0 := by
    rw [str_lower_eq_self render h]
    exact count_fake_indicators_eq_zero render h
  have hpair : fallback_predict_proba render = (1, 0) := by
    simp only [fallback_predict_proba, h0, Nat.cast_zero, zero_div]
    rw [min_eq_left (by norm_num : (0 : ℚ) ≤ 0.9)]
    norm_num
  rw [hpair]
  refine ⟨rfl, ?_⟩
  simp only [ml_item_analysis, ItemAnalysis.mk.injEq]
  norm_num

/-- Witness for C3: a concrete decimal rendering of a 10-element feature
vector satisfies the alphabet hypothesis and produces P(fake) = 0,
is_fake = false, confidence = 1. -/
theorem fallback_on_numeric_rendering_witness :
    (fallback_predict_proba ("[25, 5, 4.2, 0.04, 0.0, 0.08, 0, 0, 0, 0]".toList)).2 = 0 ∧
    ml_item_analysis
      (fallback_predict_proba ("[25, 5, 4.2, 0.04, 0.0, 0.08, 0, 0, 0, 0]".toList)) =
      ⟨0, false, 1⟩ :=
  fallback_on_numeric_rendering ("[25, 5, 4.2, 0.04, 0.0, 0.08, 0, 0, 0, 0]".toList)
    (by decide)

/-- Python `str.isspace` characters relevant to `str.split()` (ASCII
whitespace: space, tab, newline, carriage return, vertical tab, form
feed). -/
def py_isspace (c : Char) : Bool :=
  c = ' ' || c = '\t' || c = '\n' || c = '\r' || c = Char.ofNat 11 || c = Char.ofNat 12

/-- Python's `text.split()`: split on runs of whitespace, dropping empty
tokens. -/
def python_split (s : List Char) : List (List Char) :=
  (s.splitOnP py_isspace).filter (fun w => !w.isEmpty)

/-- `string.punctuation` membership: the 32 ASCII punctuation characters,
i.e. the printable ASCII characters that are neither alphanumeric nor the
space (code points 33–47, 58–64, 91–96 and 123–126). -/
def is_punctuation_char (c : Char) : Bool :=
  (33 ≤ c.toNat && c.toNat ≤ 47) || (58 ≤ c.toNat && c.toNat ≤ 64) ||
  (91 ≤ c.toNat && c.toNat ≤ 96) || (123 ≤ c.toNat && c.toNat ≤ 126)

/-- An ASCII letter (the character class `[a-zA-Z]`). -/
def is_ascii_alpha (c : Char) : Bool := c.isUpper || c.isLower

/-- The character class `[a-zA-Z0-9._%+-]` of the email regex's local
part. -/
def email_local_char (c : Char) : Bool :=
  c.isAlphanum || c = '.' || c = '_' || c = '%' || c = '+' || c = '-'

/-- The character class `[a-zA-Z0-9.-]` of the email regex's domain
part. -/
def email_domain_char (c : Char) : Bool :=
  c.isAlphanum || c = '.' || c = '-'

/-- Whether `\.[a-zA-Z]{2,}` matches at the start of `l` (two letters
suffice; further letters only extend the match). -/
def email_tld_at (l : List Char) : Bool :=
  match l with
  | '.' :: a :: b :: _ => is_ascii_alpha a && is_ascii_alpha b
  | _ => false

/-- Whether `[a-zA-Z0-9.-]+\.[a-zA-Z]{2,}` matches at the start of
`post` (the part after the `@`): some non-empty prefix of domain
characters, then a dot and at least two letters. -/
def email_domain_match (post : List Char) : Bool :=
  (List.range (post.length + 1)).any fun k =>
    decide (0 < k) && (post.take k).all email_domain_char && email_tld_at (post.drop k)

/-- `re.search(r'[a-zA-Z0-9._%+-]+@[a-zA-Z0-9.-]+\.[a-zA-Z]{2,}', text)`
as a Boolean: a match exists iff some `@` is directly preceded by a
local-part character and followed by a domain, a dot and a two-letter
tail. -/
def has_email (s : List Char) : Bool :=
  (List.range s.length).any fun i =>
    match s.drop i with
    | c :: '@' :: post => email_local_char c && email_domain_match post
    | _ => false

/-- A character matched by the body of the URL regex after the scheme:
`[a-zA-Z]`, `[0-9]`, the range `[$-_@.&+]` (code points 36–95, which
already contains `%`, so a lone `%` also continues a match), or one of
`! * \ ( ) ,`. -/
def url_rest_char (c : Char) : Bool :=
  is_ascii_alpha c || c.isDigit || (36 ≤ c.toNat && c.toNat ≤ 95) ||
  c = '!' || c = '*' || c = '\\' || c = '(' || c = ')' || c = ','

/-- `re.search(r'http[s]?://(?:...)+' , text)` as a Boolean: the text
contains `http://` or `https://` followed by at least one body
character. -/
def has_url (s : List Char) : Bool :=
  (List.range s.length).any fun i =>
    match s.drop i with
    | 'h' :: 't' :: 't' :: 'p' :: 's' :: ':' :: '/' :: '/' :: c :: _ => url_rest_char c
    | 'h' :: 't' :: 't' :: 'p' :: ':' :: '/' :: '/' :: c :: _ => url_rest_char c
    | _ => false

/-- `len(text)` as a feature value. -/
def text_length (t : List Char) : ℚ := t.length

/-- `len(text.split())` as a feature value. -/
def word_count (t : List Char) : ℚ := (python_split t).length

/-- `sum(len(word) for word in text.split()) / len(text.split()) if
text.split() else 0`. -/
def avg_word_length (t : List Char) : ℚ :=
  if python_split t ≠ [] then
    (((python_split t).map List.length).sum : ℚ) / ((python_split t).length : ℚ)
  else 0

/-- `sum(1 for c in text if c.isupper()) / len(text) if text else 0`. -/
def uppercase_ratio (t : List Char) : ℚ :=
  if t ≠ [] then ((t.filter Char.isUpper).length : ℚ) / (t.length : ℚ) else 0

/-- `sum(1 for c in text if c.isdigit()) / len(text) if text else 0`. -/
def digit_ratio (t : List Char) : ℚ :=
  if t ≠ [] then ((t.filter Char.isDigit).length : ℚ) / (t.length : ℚ) else 0

/-- `sum(1 for c in text if c in string.punctuation) / len(text) if text
else 0`. -/
def punctuation_ratio (t : List Char) : ℚ :=
  if t ≠ [] then ((t.filter is_punctuation_char).length : ℚ) / (t.length : ℚ) else 0

/-- `text.count('!')`. -/
def exclamation_count (t : List Char) : ℚ := ((t.filter (· == '!')).length : ℚ)

/-- `text.count('?')`. -/
def question_count (t : List Char) : ℚ := ((t.filter (· == '?')).length : ℚ)

/-- The email flag as the 0/1 feature value of `features.py`. -/
def has_email_feature (t : List Char) : ℚ := if has_email t then 1 else 0

/-- The URL flag as the 0/1 feature value of `features.py`. -/
def has_url_feature (t : List Char) : ℚ := if has_url t then 1 else 0

/-- Embedding of `extract_features_for_xgboost` from `features.py`: the
feature dict rendered into `feature_array` in its fixed order. -/
def extract_features_for_xgboost (t : List Char) : List ℚ :=
  [text_length t, word_count t, avg_word_length t, uppercase_ratio t, digit_ratio t,
   punctuation_ratio t, exclamation_count t, question_count t,
   has_email_feature t, has_url_feature t]

/-- A count-over-length ratio guarded by an emptiness test is in
[0, 1]. -/
theorem count_ratio_bounds (t : List Char) (p : Char → Bool) :
    0 ≤ (if t ≠ [] then ((t.filter p).length : ℚ) / (t.length : ℚ) else 0) ∧
    (if t ≠ [] then ((t.filter p).length : ℚ) / (t.length : ℚ) else 0) ≤ 1 := by
  split_ifs with h
  · have hlen : 0 < (t.length : ℚ) := by
      exact_mod_cast List.length_pos.mpr h
    constructor
    · positivity
    · rw [div_le_one hlen]
      exact_mod_cast t.length_filter_le p
  · norm_num

end FakeBuster

namespace FakeBuster

/-- Claim C6: feature extraction is total and returns exactly 10 values
in the fixed order [text_length, word_count, avg_word_length,
uppercase_ratio, digit_ratio, punctuation_ratio, exclamation_count,
question_count, has_email, has_url]; the three ratio features always lie
in [0, 1] and are 0 for empty text, and avg_word_length is 0 for empty
text — no input divides by zero. -/
theorem feature_vector_shape_and_bounds (t : List Char) :
    (extract_features_for_xgboost t).length = 10 ∧
    extract_features_for_xgboost t =
      [text_length t, word_count t, avg_word_length t, uppercase_ratio t, digit_ratio t,
       punctuation_ratio t, exclamation_count t, question_count t,
       has_email_feature t, has_url_feature t] ∧
    (0 ≤ uppercase_ratio t ∧ uppercase_ratio t ≤ 1) ∧
    (0 ≤ digit_ratio t ∧ digit_ratio t ≤ 1) ∧
    (0 ≤ punctuation_ratio t ∧ punctuation_ratio t ≤ 1) ∧
    uppercase_ratio [] = 0 ∧ digit_ratio [] = 0 ∧ punctuation_ratio [] = 0 ∧
    avg_word_length [] = 0 := by
  refine ⟨rfl, rfl, ?_, ?_, ?_, rfl, rfl, rfl, rfl⟩
  · exact count_ratio_bounds t Char.isUpper
  · exact count_ratio_bounds t Char.isDigit
  · exact count_ratio_bounds t is_punctuation_char

/-- A named feature value: numeric or Boolean (the Python dict holds
both). -/
inductive FeatVal where
  | num (q : ℚ)
  | flag (b : Bool)
deriving DecidableEq, Repr

/-- Python's `str.isupper` for a token (ASCII): at least one letter, and
no lowercase letter. -/
def py_isupper (w : List Char) : Bool :=
  w.any is_ascii_alpha && w.all (fun c => !c.isLower)

/-- `sum(1 for word in text.split() if word.isupper() and len(word) > 1)`. -/
def caps_words_count (t : List Char) : ℕ :=
  ((python_split t).filter (fun w => py_isupper w && decide (w.length > 1))).length

/-- Embedding of `extract_additional_features` from `features.py` as an
association list in the source's insertion order; `sentiment` is the
optional sentiment capability (`none` when TextBlob is unavailable). -/
def extract_additional_features (sentiment : Option (ℚ × ℚ)) (t : List Char) :
    List (String × FeatVal) :=
  [("text_length", FeatVal.num (text_length t)),
   ("word_count", FeatVal.num (word_count t)),
   ("uppercase_ratio", FeatVal.num (uppercase_ratio t)),
   ("exclamation_count", FeatVal.num (exclamation_count t)),
   ("question_count", FeatVal.num (question_count t)),
   ("has_email", FeatVal.flag (has_email t)),
   ("has_url", FeatVal.flag (has_url t)),
   ("caps_words_count", FeatVal.num (caps_words_count t)),
   ("digit_ratio", FeatVal.num (digit_ratio t))]
  ++ match sentiment with
     | some ps =>
        [("sentiment_polarity", FeatVal.num ps.1),
         ("sentiment_subjectivity", FeatVal.num ps.2)]
     | none =>
        [("sentiment_polarity", FeatVal.num 0),
         ("sentiment_subjectivity", FeatVal.num 0)]

/-- Claim C9, counterexample: the named feature set of
`extract_additional_features` has no `avg_word_length` and no
`punctuation_ratio` entry, contrary to the claim that all ten numeric
features of §4.1 appear. -/
theorem additional_features_missing_keys :
    (extract_additional_features none ("test".toList)).lookup "avg_word_length" = none ∧
    (extract_additional_features none ("test".toList)).lookup "punctuation_ratio" = none := by
  constructor <;> rfl

/-- Claim C9, amended: for every text the named feature set contains, in
order, entries for eight of the ten numeric features of §4.1
(text_length, word_count, uppercase_ratio, exclamation_count,
question_count, has_email, has_url, digit_ratio — but not
avg_word_length and not punctuation_ratio) plus caps_words_count (the
number of whitespace-delimited tokens that are entirely uppercase and
longer than one character), sentiment_polarity and
sentiment_subjectivity, the latter two defaulting to 0 when no sentiment
analyzer is available. -/
theorem additional_features_keys (sentiment : Option (ℚ × ℚ)) (t : List Char) :
    (extract_additional_features sentiment t).map Prod.fst =
      ["text_length", "word_count", "uppercase_ratio", "exclamation_count",
       "question_count", "has_email", "has_url", "caps_words_count", "digit_ratio",
       "sentiment_polarity", "sentiment_subjectivity"] ∧
    (extract_additional_features none t).lookup "sentiment_polarity" =
      some (FeatVal.num 0) ∧
    (extract_additional_features none t).lookup "sentiment_subjectivity" =
      some (FeatVal.num 0) ∧
    (extract_additional_features sentiment t).lookup "caps_words_count" =
      some (FeatVal.num (caps_words_count t)) := by
  refine ⟨?_, rfl, rfl, ?_⟩
  · cases sentiment <;> rfl
  · cases sentiment <;> rfl

/-- The possible outcomes of opening and unpickling
`models/xgboost_model.pkl` in `load_models`. -/
inductive PickleResult where
  | ok
  | fileNotFound
  | raisedOther
deriving DecidableEq, Repr

/-- Which review classifier ends up installed in the global
`review_model`. -/
inductive ReviewModel where
  | trained
  | fallback
deriving DecidableEq, Repr

/-- Embedding of `load_models` from `main.py`: if ML libraries are
absent the models stay `None`; otherwise `FileNotFoundError` installs
`FallbackReviewClassifier` and any other unpickling exception is
logged and re-raised (`except Exception as e: ... raise`). -/
def load_models (ml_available : Bool) (load : PickleResult) :
    Except String (Option ReviewModel) :=
  if !ml_available then Except.ok none
  else
    match load with
    | PickleResult.ok => Except.ok (some ReviewModel.trained)
    | PickleResult.fileNotFound => Except.ok (some ReviewModel.fallback)
    | PickleResult.raisedOther => Except.error "Error loading models"

/-- Claim C4, counterexample: when the artifact is present but corrupt
(unpickling raises something other than `FileNotFoundError`),
`load_models` re-raises instead of installing the fallback, so startup
does not complete. -/
theorem load_models_corrupt_raises :
    load_models true PickleResult.raisedOther = Except.error "Error loading models" ∧
    ∀ m : Option ReviewModel,
      load_models true PickleResult.raisedOther ≠ Except.ok m := by
  refine ⟨rfl, fun m h => ?_⟩
  simp only [load_models] at h
  exact Except.noConfusion h

/-- Claim C4, amended: if the artifact file is absent
(`FileNotFoundError`) the rule-based fallback classifier is installed
and startup completes; but if the artifact is present and corrupt —
unpickling raises any other exception — `load_models` re-raises and
startup fails. When ML libraries are absent, loading is skipped and no
model is installed. -/
theorem load_models_amended :
    load_models true PickleResult.fileNotFound =
      Except.ok (some ReviewModel.fallback) ∧
    load_models true PickleResult.raisedOther =
      Except.error "Error loading models" ∧
    (∀ r : PickleResult, load_models false r = Except.ok none) :=
  ⟨rfl, rfl, fun _ => rfl⟩

/-- The fixed phrase lexicon of `extract_features_from_review` used on
the rule-based (ML-unavailable) branch of `analyze_reviews`. -/
def review_fake_phrases : List (List Char) :=
  ["life changing".toList, "best purchase ever".toList, "highly recommend".toList,
   "must buy".toList, "changed my life".toList, "amazing quality".toList]

/-- `features['fake_indicator_count']`: the number of phrases of
`review_fake_phrases` occurring in `text.lower()`. -/
def fake_indicator_count (text : List Char) : ℕ :=
  (review_fake_phrases.filter (fun p => decide (p <:+: str_lower text))).length

/-- The per-item computation of the rule-based (ML-unavailable) branch
of `analyze_reviews`: `fake_probability = min(fake_indicator_count *
0.2, 0.9)`, `is_fake = fake_probability > 0.5`, `confidence =
fake_probability if fake_probability > 0.5 else 1 - fake_probability`. -/
def rule_based_item (text : List Char) : ItemAnalysis :=
  let fake_probability : ℚ := min ((fake_indicator_count text : ℚ) * 0.2) 0.9
  { fake_probability := fake_probability
    is_fake := decide (fake_probability > 0.5)
    confidence :=
      if fake_probability > 0.5 then fake_probability else 1 - fake_probability }

/-- The per-item computation of the model-backed branch of
`analyze_reviews`: extract the numeric feature vector, call the model's
`predict_proba` on it, and derive the item fields from the returned
probability pair. -/
def ml_item (predict : List ℚ → ℚ × ℚ) (text : List Char) : ItemAnalysis :=
  ml_item_analysis (predict (extract_features_for_xgboost text))

/-- An HTTP error raised by an endpoint (status code and detail
string). -/
structure HTTPExc where
  status_code : ℕ
  detail : String
deriving DecidableEq, Repr

/-- The response fields of `analyze_reviews` relevant to batch
summarization. -/
structure ReviewBatchResponse where
  fake_reviews : ℕ
  total_reviews : ℕ
  confidence : ℚ
deriving DecidableEq, Repr

/-- The body of the `try:` block of `analyze_reviews` in `main.py`:
reject an empty batch with 400 "No reviews provided"; otherwise score
every review on the rule-based branch (ML libraries absent) or the
model-backed branch (raising 500 "ML model not loaded" when no model is
installed), and summarize. -/
def analyze_reviews_body (ml_available : Bool) (model : Option (List ℚ → ℚ × ℚ))
    (reviews : List (List Char)) : Except HTTPExc ReviewBatchResponse :=
  if reviews.isEmpty then Except.error ⟨400, "No reviews provided"⟩
  else if !ml_available then
    let analyses := reviews.map rule_based_item
    Except.ok ⟨(analyses.filter (fun a => a.is_fake)).length, reviews.length,
      ((analyses.map (fun a => a.confidence)).sum) / (analyses.length : ℚ)⟩
  else
    match model with
    | none => Except.error ⟨500, "ML model not loaded"⟩
    | some predict =>
      let analyses := reviews.map (ml_item predict)
      Except.ok ⟨(analyses.filter (fun a => a.is_fake)).length, reviews.length,
        ((analyses.map (fun a => a.confidence)).sum) / (analyses.length : ℚ)⟩

/-- The whole `analyze_reviews` endpoint: the blanket
`except Exception: ... raise HTTPException(500, "Analysis failed")`
catches every exception of the body — including the `HTTPException`s the
body raises on purpose — and replaces it with the generic 500. -/
def analyze_reviews_endpoint (ml_available : Bool) (model : Option (List ℚ → ℚ × ℚ))
    (reviews : List (List Char)) : Except HTTPExc ReviewBatchResponse :=
  match analyze_reviews_body ml_available model reviews with
  | Except.ok r => Except.ok r
  | Except.error _ => Except.error ⟨500, "Analysis failed"⟩

/-- Claim C5: an empty batch is rejected before any scoring — the body
raises 400 "No reviews provided" — but the blanket exception handler
masks it, so the caller of the endpoint receives the generic
500 "Analysis failed" instead of the specific condition. -/
theorem empty_batch_rejected_then_masked :
    analyze_reviews_body true (some (fun _ => (1, 0))) [] =
      Except.error ⟨400, "No reviews provided"⟩ ∧
    analyze_reviews_endpoint true (some (fun _ => (1, 0))) [] =
      Except.error ⟨500, "Analysis failed"⟩ ∧
    analyze_reviews_body false none [] =
      Except.error ⟨400, "No reviews provided"⟩ ∧
    analyze_reviews_endpoint false none [] =
      Except.error ⟨500, "Analysis failed"⟩ :=
  ⟨rfl, rfl, rfl, rfl⟩

/-- Claim C7: the is-fake decision thresholds differ by branch and are
not shared — on the model-backed path an item is flagged fake exactly
when P(fake) > 0.7, on the rule-based fallback path exactly when
P(fake) > 0.5. -/
theorem is_fake_thresholds (predict : List ℚ → ℚ × ℚ) (text : List Char) :
    ((ml_item predict text).is_fake = true ↔
      (ml_item predict text).fake_probability > 0.7) ∧
    ((rule_based_item text).is_fake = true ↔
      (rule_based_item text).fake_probability > 0.5) := by
  constructor
  · simp [ml_item, ml_item_analysis]
  · simp [rule_based_item]

end FakeBuster

namespace FakeBuster

/-- An indicator recorded by the text scanner (`analyze_text`): the
matching registry category, the matched pattern, and its severity. -/
structure ScamIndicator where
  category : String
  pattern : List Char
  severity : String
deriving DecidableEq, Repr

/-- The apostrophe character (used by the pattern `don't miss out`). -/
def apostrophe : Char := Char.ofNat 39

/-- The fixed `scam_patterns` registry of `analyze_text` in `main.py`,
grouped by category in source order. -/
def scam_patterns : List (String × List (List Char)) :=
  [("urgency",
    ["limited time".toList, "act now".toList, "expires today".toList, "hurry".toList]),
   ("money_promises",
    ["guaranteed income".toList, "make money fast".toList, "easy money".toList]),
   ("fake_urgency",
    ["only today".toList, "last chance".toList,
     "don".toList ++ [apostrophe] ++ "t miss out".toList]),
   ("personal_info",
    ["ssn".toList, "social security".toList, "bank account".toList,
     "routing number".toList])]

/-- The result record of `analyze_text`. -/
structure TextAnalysisResult where
  risk_level : String
  scam_indicators : List ScamIndicator
  is_suspicious : Bool
deriving DecidableEq, Repr

/-- Embedding of the `analyze_text` endpoint body from `main.py`: lower
the text, record one indicator per registry (category, pattern) entry
whose pattern occurs in it (severity "high" for personal_info, else
"medium"), and derive the overall risk level and suspicion flag. -/
def analyze_text (text : List Char) : TextAnalysisResult :=
  let t := str_lower text
  let indicators := scam_patterns.flatMap (fun cp =>
    (cp.2.filter (fun p => decide (p <:+: t))).map (fun p =>
      ⟨cp.1, p, if cp.1 = "personal_info" then "high" else "medium"⟩))
  let risk_level :=
    if indicators.any (fun i => i.severity == "high") then "high"
    else if !indicators.isEmpty then "medium"
    else "low"
  ⟨risk_level, indicators, decide (0 < indicators.length)⟩

/-- The if-chain computing the risk level agrees with its propositional
reading: "high" when some indicator has severity "high", else "medium"
when any indicator exists, else "low". -/
theorem risk_level_shape (inds : List ScamIndicator) :
    (if inds.any (fun i => i.severity == "high") then "high"
     else if !inds.isEmpty then "medium" else "low") =
    (if ∃ i ∈ inds, i.severity = "high" then "high"
     else if inds ≠ [] then "medium" else "low") := by
  by_cases h1 : ∃ i ∈ inds, i.severity = "high" <;>
    by_cases h2 : inds = [] <;>
    simp_all [List.any_eq_true, List.isEmpty_iff, beq_iff_eq]

/-- Claim C8: the scanner records one indicator per (category, pattern)
registry entry whose pattern occurs in the lower-cased text, with
severity "high" exactly for personal_info and "medium" otherwise; the
risk level is "high" if some recorded indicator has severity "high",
else "medium" if any indicator exists, else "low"; and is_suspicious
holds exactly when the indicator list is non-empty. -/
theorem text_scanner_characterization (text : List Char) :
    (∀ ind : ScamIndicator, ind ∈ (analyze_text text).scam_indicators ↔
      ∃ pats, (ind.category, pats) ∈ scam_patterns ∧ ind.pattern ∈ pats ∧
        ind.pattern <:+: str_lower text ∧
        ind.severity = (if ind.category = "personal_info" then "high" else "medium")) ∧
    ((analyze_text text).risk_level =
      if ∃ i ∈ (analyze_text text).scam_indicators, i.severity = "high" then "high"
      else if (analyze_text text).scam_indicators ≠ [] then "medium" else "low") ∧
    ((analyze_text text).is_suspicious = true ↔
      (analyze_text text).scam_indicators ≠ []) := by
  refine ⟨?_, ?_, ?_⟩
  · intro ind
    simp only [analyze_text, List.mem_flatMap, List.mem_map, List.mem_filter,
      decide_eq_true_iff]
    constructor
    · rintro ⟨⟨cat, pats⟩, hcp, p, ⟨hp, hinf⟩, rfl⟩
      exact ⟨pats, hcp, hp, hinf, rfl⟩
    · obtain ⟨cat, p, sev⟩ := ind
      rintro ⟨pats, hcp, hp, hinf, hsev⟩
      simp only at hcp hp hinf hsev
      exact ⟨(cat, pats), hcp, p, ⟨hp, hinf⟩, by rw [hsev]⟩
  · simp only [analyze_text]
    exact risk_level_shape _
  · simp only [analyze_text, decide_eq_true_iff]
    exact List.length_pos

end FakeBuster
